import Mathlib

/-!
Verification of the demand-forecasting / price-optimization / reorder
subsystem of the Electronics_Store repository (`ai_analytics.py`).

The Python module is shallowly embedded below.  Machine floats are
modelled as real numbers; the pandas/sklearn numeric kernels that a claim
does not depend on (daily aggregation, feature-table construction, model
fitting, feature scaling) are taken as explicit function parameters of the
embedded operations, while every piece of control flow, arithmetic and
data-shaping that the claims talk about is translated directly from the
source.  Fallible Python code (caught exceptions, error dictionaries) is
modelled with `Except`.
-/

open scoped Classical

noncomputable section

/-- Python `round` to an integer: round-half-to-even (banker's rounding),
the semantics of `round` on floats. -/
def roundHalfEven (x : ℝ) : ℤ :=
  if Int.fract x < 1 / 2 then ⌊x⌋
  else if Int.fract x = 1 / 2 then (if Even ⌊x⌋ then ⌊x⌋ else ⌊x⌋ + 1)
  else ⌊x⌋ + 1

/-- Python `round(x, d)` with `d ≥ 0` digits. -/
def pyRound (x : ℝ) (d : ℕ) : ℝ := (roundHalfEven (x * 10 ^ d) : ℝ) / 10 ^ d

/-- Python division: raises `ZeroDivisionError` on a zero denominator.  The
module wraps its bodies in `try/except Exception`, turning the raised error
into an error dictionary, hence the `Except` result. -/
def pyDiv (a b : ℝ) : Except String ℝ :=
  if b = 0 then Except.error "division by zero" else Except.ok (a / b)

/-- Python `float(v or dflt)` applied to a nullable numeric value: `None`
and `0` are falsy and give the default. -/
def pyOrFloat (v : Option ℝ) (dflt : ℝ) : ℝ :=
  match v with
  | none => dflt
  | some x => if x = 0 then dflt else x

/-- Calendar fields of a pandas timestamp that the feature extraction
reads (`date.dayofweek`, `date.month`, `date.quarter`). -/
structure Date where
  dayofweek : ℕ
  month : ℕ
  quarter : ℕ
deriving DecidableEq

/-- Arithmetic mean of a list of reals (`np.mean`). -/
def listMean (l : List ℝ) : ℝ := l.sum / l.length

/-- Population standard deviation (`np.std`, ddof = 0). -/
def popStd (l : List ℝ) : ℝ :=
  Real.sqrt ((l.map (fun x => (x - listMean l) ^ 2)).sum / l.length)

/-- Sample standard deviation (pandas `Series.std()`, ddof = 1). -/
def sampleStd (l : List ℝ) : ℝ :=
  Real.sqrt ((l.map (fun x => (x - listMean l) ^ 2)).sum / ((l.length : ℝ) - 1))

/-- Python slice `l[-n:]` / pandas `.tail(n)`: the last `n` elements. -/
def lastN (n : ℕ) (l : List ℝ) : List ℝ := l.drop (l.length - n)

/-- The `feature_row` dictionary built inside `predict_demand` for one
future date: calendar features from the date, lag and rolling features
from the last 30 entries of the recent-sales quantity buffer, with keys
that the buffer is too short to fill defaulted to 0. -/
structure FeatureRow where
  day_of_week : ℕ
  month : ℕ
  quarter : ℕ
  is_weekend : ℕ
  sin_month : ℝ
  cos_month : ℝ
  sin_day : ℝ
  cos_day : ℝ
  sales_lag_1 : ℝ
  sales_lag_7 : ℝ
  sales_lag_14 : ℝ
  sales_lag_30 : ℝ
  sales_mean_7 : ℝ
  sales_std_7 : ℝ
  sales_mean_14 : ℝ
  sales_std_14 : ℝ
  sales_mean_30 : ℝ
  sales_std_30 : ℝ

/-- Translation of the `feature_row` construction in `predict_demand`
(lines 240-280 of `ai_analytics.py`): `recent_quantities` is
`recent_sales['quantity'].tail(30)`; `recent_quantities[-k]` is index
`len - k`; missing keys become 0. -/
def featureRow (recentSales : List ℝ) (d : Date) : FeatureRow :=
  let q := lastN 30 recentSales
  let n := q.length
  { day_of_week := d.dayofweek
    month := d.month
    quarter := d.quarter
    is_weekend := if d.dayofweek = 5 ∨ d.dayofweek = 6 then 1 else 0
    sin_month := Real.sin (2 * Real.pi * d.month / 12)
    cos_month := Real.cos (2 * Real.pi * d.month / 12)
    sin_day := Real.sin (2 * Real.pi * d.dayofweek / 7)
    cos_day := Real.cos (2 * Real.pi * d.dayofweek / 7)
    sales_lag_1 := if 1 ≤ n then q.getD (n - 1) 0 else 0
    sales_lag_7 := if 7 ≤ n then q.getD (n - 7) 0 else 0
    sales_lag_14 := if 14 ≤ n then q.getD (n - 14) 0 else 0
    sales_lag_30 := if 30 ≤ n then q.getD (n - 30) 0 else 0
    sales_mean_7 := if 7 ≤ n then listMean (lastN 7 q) else 0
    sales_std_7 := if 7 ≤ n then popStd (lastN 7 q) else 0
    sales_mean_14 := if 14 ≤ n then listMean (lastN 14 q) else 0
    sales_std_14 := if 14 ≤ n then popStd (lastN 14 q) else 0
    sales_mean_30 := if 30 ≤ n then listMean (lastN 30 q) else 0
    sales_std_30 := if 30 ≤ n then popStd (lastN 30 q) else 0 }

/-- A fitted regressor as used at prediction time: a function from a
feature row to a predicted quantity.  For linear models the source first
applies the stored scaler to the feature vector; that composition is
absorbed into the function. -/
def Model : Type := FeatureRow → ℝ

/-- A fitted `StandardScaler`, as a transformation of feature rows. -/
def Scaler : Type := FeatureRow → FeatureRow

/-- One element of the `predictions` list returned by `predict_demand`. -/
structure PredEntry where
  date : Date
  predicted_demand : ℝ

/-- The forecast loop of `predict_demand` (lines 238-300): for every future
date, build a feature row from the (fixed) recent-sales buffer, predict,
clamp at 0, round to two digits, and append to the output list.  The
accumulator mirrors `predictions.append`. -/
def predictLoop (m : Model) (recentSales : List ℝ) :
    List Date → List PredEntry → List PredEntry
  | [], acc => acc
  | d :: ds, acc =>
    let pred := max 0 (m (featureRow recentSales d))
    predictLoop m recentSales ds
      (acc ++ [{ date := d, predicted_demand := pyRound pred 2 }])

/-- Reference semantics written from the spec's words, for the refinement
check of claim C1 only: the autoregressive walk in which each clamped
prediction is appended to the rolling buffer before the next day's
features are computed. -/
def predictLoopAR (m : Model) (buf : List ℝ) : List Date → List PredEntry
  | [] => []
  | d :: ds =>
    let pred := max 0 (m (featureRow buf d))
    { date := d, predicted_demand := pyRound pred 2 } ::
      predictLoopAR m (buf ++ [pred]) ds

/-- The success payload of `predict_demand`. -/
structure ForecastResult where
  product_id : ℕ
  predictions : List PredEntry
  total_predicted_demand : ℝ
  average_daily_demand : ℝ

/-- Translation of `predict_demand` (lines 205-314) after the model has
been obtained (the lazy "train if missing" step hands over a fitted model
or propagates the training error; here the fitted model is a parameter).
`futureDates` is the `pd.date_range(periods=days_ahead)` result, so
`futureDates.length` is `days_ahead`, the denominator of the reported
average. -/
def predictDemand (m : Model) (productId : ℕ) (recentSales : List ℝ)
    (futureDates : List Date) : Except String ForecastResult :=
  if recentSales = [] then Except.error "No recent sales data available"
  else
    let preds := predictLoop m recentSales futureDates []
    let total := (preds.map PredEntry.predicted_demand).sum
    match pyDiv total (futureDates.length : ℝ) with
    | Except.error e => Except.error e
    | Except.ok avg =>
      Except.ok { product_id := productId, predictions := preds
                  total_predicted_demand := pyRound total 2
                  average_daily_demand := pyRound avg 2 }

/-- One raw sales-history row fed to `train_demand_model`. -/
structure SaleRow where
  product_id : ℕ
  dayIndex : ℕ
  quantity : ℝ
  price : ℝ

/-- One candidate in the model-selection loop of `train_demand_model`:
its dictionary key, its fitted model, and its held-out mean absolute
error. -/
structure Candidate where
  name : String
  model : Model
  mae : ℝ

/-- The best-model selection loop of `train_demand_model` (lines 164-181):
`best_score` starts at infinity, candidates are visited in dictionary
order, and a candidate replaces the incumbent only when its MAE is
strictly smaller. -/
def selectBestModel (cands : List Candidate) : Option Candidate :=
  cands.foldl
    (fun best c =>
      match best with
      | none => some c
      | some b => if c.mae < b.mae then some c else some b)
    none

/-- The persistent artifact store of `DemandForecaster`: the joblib files
under `models/` and the in-memory `self.models` / `self.scalers` caches,
each keyed by product id. -/
structure ModelStore where
  diskModels : ℕ → Option Model
  diskScalers : ℕ → Option Scaler
  memModels : ℕ → Option Model
  memScalers : ℕ → Option Scaler

/-- Result of `train_demand_model`. -/
inductive TrainOutcome where
  | insufficientData
  | insufficientClean
  | noCandidate
  | success (modelType : String) (mae : ℝ) (trainingSamples testSamples : ℕ)

/-- Translation of `train_demand_model` (lines 99-203).  The pandas /
sklearn kernels appear as parameters: `featurize` is the daily
aggregation + date filling + `extract_features` + `dropna` pipeline,
`fitCandidates` fits the random-forest, gradient-boosting and linear
candidates on the 80/20 chronological split and reports their held-out
MAEs, and `fitScaler` is the `StandardScaler` fitted on the training
split.  The control flow, thresholds, selection loop, persistence and
cache updates are from the source.  `train_test_split(test_size=0.2)`
takes `ceil(n/5)` test rows.  The `noCandidate` branch is unreachable
(three candidates are always fitted). -/
def trainDemandModel (featurize : List SaleRow → List FeatureRow)
    (fitCandidates : List FeatureRow → Candidate × Candidate × Candidate)
    (fitScaler : List FeatureRow → Scaler)
    (productId : ℕ) (salesData : List SaleRow) (store : ModelStore) :
    TrainOutcome × ModelStore :=
  if salesData.length < 30 then (TrainOutcome.insufficientData, store)
  else
    let featuresDf := featurize salesData
    if featuresDf.length < 20 then (TrainOutcome.insufficientClean, store)
    else
      let nTest := (featuresDf.length + 4) / 5
      let nTrain := featuresDf.length - nTest
      let scaler := fitScaler featuresDf
      let cands := fitCandidates featuresDf
      match selectBestModel [cands.1, cands.2.1, cands.2.2] with
      | none => (TrainOutcome.noCandidate, store)
      | some best =>
        (TrainOutcome.success best.name best.mae nTrain nTest,
         { diskModels := fun i => if i = productId then some best.model else store.diskModels i
           diskScalers := fun i => if i = productId then some scaler else store.diskScalers i
           memModels := fun i => if i = productId then some best.model else store.memModels i
           memScalers := fun i => if i = productId then some scaler else store.memScalers i })

/-- `np.linspace a b n` with its default endpoint handling: `n` evenly
spaced samples from `a` to `b` inclusive. -/
def linspace (a b : ℝ) (n : ℕ) : List ℝ :=
  (List.range n).map (fun i : ℕ => a + (i : ℝ) * (b - a) / ((n : ℝ) - 1))

/-- `np.argmax`: index of the first occurrence of the maximum value. -/
def argmaxIdx : List ℝ → ℕ
  | [] => 0
  | [_] => 0
  | v :: w :: vs =>
    let k := argmaxIdx (w :: vs)
    if (w :: vs).getD k 0 ≤ v then 0 else k + 1

/-- The `profit_function` closure inside `optimize_price` (lines 441-445):
zero at or below cost, otherwise margin times the constant-elasticity
demand curve. -/
def profitFunction (cost currentPrice elasticity baseDemand price : ℝ) : ℝ :=
  if price ≤ cost then 0
  else (price - cost) * (baseDemand * (price / currentPrice) ^ elasticity)

/-- The price found by the 100-sample linear scan of `optimize_price`
(lines 448-452), before the final 2-digit rounding of the returned
dictionary. -/
def optimalScanPrice (cost currentPrice elasticity baseDemand : ℝ) : ℝ :=
  let priceRange := linspace (cost * 1.1) (currentPrice * 2) 100
  priceRange.getD
    (argmaxIdx (priceRange.map (profitFunction cost currentPrice elasticity baseDemand))) 0

/-- The maximal profit found by the same scan. -/
def maxScanProfit (cost currentPrice elasticity baseDemand : ℝ) : ℝ :=
  let profits := (linspace (cost * 1.1) (currentPrice * 2) 100).map
    (profitFunction cost currentPrice elasticity baseDemand)
  profits.getD (argmaxIdx profits) 0

/-- The numeric fields of the dictionary returned by `optimize_price`.
The trailing human-readable `recommendation` string is a function of the
`current_price`, `optimal_price`, `target_margin_price` and
`price_elasticity` fields only, so it is not repeated here. -/
structure OptResult where
  current_price : ℝ
  optimal_price : ℝ
  target_margin_price : ℝ
  current_margin : ℝ
  optimal_margin : ℝ
  profit_improvement_percent : ℝ
  price_elasticity : ℝ

/-- Translation of `optimize_price` (lines 391-480).  `productRow` is the
`SELECT price, cost FROM products` row (`none` when the product does not
exist); `elasticityResult` is the outcome of `get_price_elasticity`
(already rounded to 3 digits by that function); `avgDailySales` is the
30-day average daily sales aggregate (`NULL` mapped to `none`).  The cost
used everywhere is `float(product.cost or current_cost)` and the base
demand is `float(avg or 1)`. -/
def optimizePrice (productRow : Option (ℝ × Option ℝ)) (currentCost targetMargin : ℝ)
    (elasticityResult : Except String ℝ) (avgDailySales : Option ℝ) :
    Except String OptResult :=
  match productRow with
  | none => Except.error "Product not found"
  | some (currentPrice, storedCost) =>
    let cost := pyOrFloat storedCost currentCost
    let elasticity := match elasticityResult with
      | Except.error _ => -1
      | Except.ok e => e
    let baseDemand := pyOrFloat avgDailySales 1
    let optimalPrice := optimalScanPrice cost currentPrice elasticity baseDemand
    let maxProfit := maxScanProfit cost currentPrice elasticity baseDemand
    let currentProfit := profitFunction cost currentPrice elasticity baseDemand currentPrice
    let profitImprovement :=
      if 0 < currentProfit then (maxProfit - currentProfit) / currentProfit * 100 else 0
    let targetPrice := cost / (1 - targetMargin)
    Except.ok
      { current_price := pyRound currentPrice 2
        optimal_price := pyRound optimalPrice 2
        target_margin_price := pyRound targetPrice 2
        current_margin := pyRound ((currentPrice - cost) / currentPrice) 3
        optimal_margin := pyRound ((optimalPrice - cost) / optimalPrice) 3
        profit_improvement_percent := pyRound profitImprovement 1
        price_elasticity := pyRound elasticity 3 }

/-- The cumulative distribution function of the standard normal
distribution, used to model `scipy.stats.norm`. -/
def stdNormalCDF (x : ℝ) : ℝ :=
  ProbabilityTheory.cdf (ProbabilityTheory.gaussianReal 0 1) x

/-- `scipy.stats.norm.ppf`: the quantile function (inverse CDF) of the
standard normal distribution. -/
def normPpf (p : ℝ) : ℝ := sInf {x : ℝ | p ≤ stdNormalCDF x}

/-- The dictionary returned by `calculate_reorder_point`.  Keys that only
one of the two code paths emits are `Option`-valued: the statistical path
emits `safety_stock`, `lead_time_demand` and `service_level` but no
`method` key, the simple fallback emits `method = "simple"` but none of
the former. -/
structure ReorderResult where
  product_id : ℕ
  location_id : ℕ
  reorder_point : ℝ
  safety_stock : Option ℝ
  economic_order_quantity : ℝ
  lead_time_demand : Option ℝ
  average_daily_demand : ℝ
  service_level : Option ℝ
  method : Option String

/-- Translation of `_simple_reorder_calculation` (lines 585-628):
`daily_demand = float(avg or 0.1)`, reorder point = 14 days × 1.5, order
quantity = 30-day supply, labelled `method = "simple"`. -/
def simpleReorderCalculation (productId locationId : ℕ) (avgDailySales : Option ℝ) :
    ReorderResult :=
  let dailyDemand := pyOrFloat avgDailySales (1 / 10)
  { product_id := productId
    location_id := locationId
    reorder_point := pyRound (dailyDemand * 14 * 1.5) 0
    safety_stock := none
    economic_order_quantity := pyRound (dailyDemand * 30) 0
    lead_time_demand := none
    average_daily_demand := pyRound dailyDemand 2
    service_level := none
    method := some "simple" }

/-- Translation of `calculate_reorder_point` (lines 501-583).  `forecast`
is the result of the `predict_demand` call; `dailySalesLoc` the 90-day
per-day quantity sums at the location; `avgDailySales30` the 30-day
average used by the fallback; `storedCost` the product's cost column
(`none` for a missing row or NULL, `some 0` is falsy in the
`if product and product.cost` test). -/
def calculateReorderPoint (productId locationId : ℕ)
    (forecast : Except String ForecastResult) (dailySalesLoc : List ℝ)
    (avgDailySales30 : Option ℝ) (storedCost : Option ℝ)
    (serviceLevel : ℝ) : ReorderResult :=
  match forecast with
  | Except.error _ => simpleReorderCalculation productId locationId avgDailySales30
  | Except.ok fr =>
    let leadTimeDays : ℝ := 7
    let avgDailyDemand := fr.average_daily_demand
    let demandStd :=
      if dailySalesLoc.length < 10 then avgDailyDemand * 0.3
      else sampleStd dailySalesLoc
    let zScore := normPpf serviceLevel
    let safetyStock := zScore * demandStd * Real.sqrt leadTimeDays
    let leadTimeDemand := avgDailyDemand * leadTimeDays
    let reorderPoint := leadTimeDemand + safetyStock
    let eoq :=
      match storedCost with
      | some c =>
        if c = 0 then avgDailyDemand * 30
        else Real.sqrt ((2 * (avgDailyDemand * 365) * 50) / (c * 0.20))
      | none => avgDailyDemand * 30
    { product_id := productId
      location_id := locationId
      reorder_point := pyRound reorderPoint 0
      safety_stock := some (pyRound safetyStock 0)
      economic_order_quantity := pyRound eoq 0
      lead_time_demand := some (pyRound leadTimeDemand 1)
      average_daily_demand := pyRound avgDailyDemand 2
      service_level := some serviceLevel
      method := none }

/-- One row of the low-stock query in `generate_reorder_suggestions`. -/
structure LowStockRow where
  product_id : ℕ
  location_id : ℕ
  stock_quantity : ℚ
  name : String
  reorder_level : ℚ
  reorder_quantity : ℚ

/-- Translation of `_calculate_priority` (lines 688-697). -/
def calculatePriority (currentStock reorderLevel : ℚ) : ℕ :=
  if currentStock ≤ 0 then 100
  else if currentStock ≤ reorderLevel * (1 / 2) then 80
  else if currentStock ≤ reorderLevel * (3 / 4) then 60
  else 40

/-- One suggestion dictionary built in `generate_reorder_suggestions`. -/
structure Suggestion where
  product_id : ℕ
  product_name : String
  location_id : ℕ
  current_stock : ℚ
  reorder_level : ℚ
  suggested_reorder_point : ℝ
  suggested_order_quantity : ℝ
  current_reorder_quantity : ℚ
  priority : ℕ

/-- The suggestion dictionary for one low-stock row and its successful
reorder calculation (lines 665-676). -/
def mkSuggestion (p : LowStockRow) (rc : ReorderResult) : Suggestion :=
  { product_id := p.product_id
    product_name := p.name
    location_id := p.location_id
    current_stock := p.stock_quantity
    reorder_level := p.reorder_level
    suggested_reorder_point := rc.reorder_point
    suggested_order_quantity := rc.economic_order_quantity
    current_reorder_quantity := p.reorder_quantity
    priority := calculatePriority p.stock_quantity p.reorder_level }

/-- The body of the collection loop of `generate_reorder_suggestions`
(lines 657-677): a row whose reorder calculation (the
`calculate_reorder_point` call, whose error dictionaries are the `error`
case) reports an error is passed over, a successful calculation appends
its suggestion dictionary. -/
def suggestionStep (calcRP : ℕ → ℕ → Except String ReorderResult)
    (acc : List Suggestion) (p : LowStockRow) : List Suggestion :=
  match calcRP p.product_id p.location_id with
  | Except.error _ => acc
  | Except.ok rc => acc ++ [mkSuggestion p rc]

/-- Translation of `generate_reorder_suggestions` (lines 630-686): for
every low-stock row, run the reorder calculation, tolerating per-row
errors; the collected suggestions are sorted by priority, descending and
stable (Python `list.sort(reverse=True)`). -/
def generateReorderSuggestions (calcRP : ℕ → ℕ → Except String ReorderResult)
    (lowStockRows : List LowStockRow) : List Suggestion :=
  let suggestions := lowStockRows.foldl (suggestionStep calcRP) []
  suggestions.mergeSort (fun a b => decide (b.priority ≤ a.priority))

end

/-! ### Concrete instances used by the witness and counterexample theorems -/

/-- A fitted model that always predicts 0. -/
def modelZero : Model := fun _ => 0

/-- A fitted model that always predicts 3. -/
def modelConst3 : Model := fun _ => 3

/-- A fitted model whose prediction is one more than yesterday's sales
(the `sales_lag_1` feature), making the forecast-feedback question
observable. -/
def modelLag1Succ : Model := fun fv => fv.sales_lag_1 + 1

/-- The identity scaler. -/
def scalerId : Scaler := fun fv => fv

/-- A store with no persisted or cached artifacts. -/
def storeEmpty : ModelStore :=
  { diskModels := fun _ => none
    diskScalers := fun _ => none
    memModels := fun _ => none
    memScalers := fun _ => none }

/-- A trivial feature pipeline (its output is irrelevant to the guarded
branches exercised by the theorems that use it). -/
def featurizeW : List SaleRow → List FeatureRow := fun _ => []

/-- A trivial candidate-fitting pipeline. -/
def fitCandidatesW : List FeatureRow → Candidate × Candidate × Candidate :=
  fun _ =>
    ({ name := "random_forest", model := modelZero, mae := 0 },
     { name := "gradient_boosting", model := modelZero, mae := 0 },
     { name := "linear_regression", model := modelZero, mae := 0 })

/-- A trivial scaler-fitting pipeline. -/
def fitScalerW : List FeatureRow → Scaler := fun _ => scalerId

/-- Some concrete future dates. -/
def dateA : Date := { dayofweek := 0, month := 1, quarter := 1 }

def dateB : Date := { dayofweek := 1, month := 1, quarter := 1 }

def dateW : Date := { dayofweek := 2, month := 3, quarter := 1 }

/-- A concrete successful forecast with average daily demand 2. -/
def forecastOkW : ForecastResult :=
  { product_id := 1, predictions := [], total_predicted_demand := 0
    average_daily_demand := 2 }

/-- The forecast produced by `modelConst3` on buffer `[5]` for one day. -/
def forecastW : ForecastResult :=
  { product_id := 1
    predictions := [{ date := dateW, predicted_demand := 3 }]
    total_predicted_demand := 3
    average_daily_demand := 3 }

/-- Three candidates whose held-out MAEs are exactly equal. -/
def candRF : Candidate := { name := "random_forest", model := modelZero, mae := 1 }

def candGB : Candidate := { name := "gradient_boosting", model := modelZero, mae := 1 }

def candLR : Candidate := { name := "linear_regression", model := modelZero, mae := 1 }

/-- Two low-stock rows for the batch-isolation counterexample. -/
def rowA : LowStockRow :=
  { product_id := 1, location_id := 1, stock_quantity := 0, name := "A"
    reorder_level := 10, reorder_quantity := 5 }

def rowB : LowStockRow :=
  { product_id := 2, location_id := 1, stock_quantity := 0, name := "B"
    reorder_level := 10, reorder_quantity := 5 }

/-- A concrete successful reorder calculation for product 2. -/
def rcB : ReorderResult :=
  { product_id := 2, location_id := 1, reorder_point := 21, safety_stock := none
    economic_order_quantity := 30, lead_time_demand := none
    average_daily_demand := 1, service_level := none, method := some "simple" }

/-- A per-item calculation that fails for product 1 and succeeds for
product 2. -/
def calcFailOn1 : ℕ → ℕ → Except String ReorderResult :=
  fun pid _ =>
    if pid = 1 then Except.error "Insufficient historical data" else Except.ok rcB

/-! ### Helper lemmas about the numeric primitives -/

theorem roundHalfEven_intCast (n : ℤ) : roundHalfEven (n : ℝ) = n := by
  unfold roundHalfEven
  simp [Int.fract_intCast]

theorem roundHalfEven_nonneg {x : ℝ} (hx : 0 ≤ x) : 0 ≤ roundHalfEven x := by
  have h := Int.floor_nonneg.mpr hx
  unfold roundHalfEven
  split_ifs <;> omega

theorem roundHalfEven_le_floor_add_one (x : ℝ) : roundHalfEven x ≤ ⌊x⌋ + 1 := by
  unfold roundHalfEven
  split_ifs <;> omega

theorem floor_le_roundHalfEven (x : ℝ) : ⌊x⌋ ≤ roundHalfEven x := by
  unfold roundHalfEven
  split_ifs <;> omega

theorem roundHalfEven_mono {x y : ℝ} (h : x ≤ y) : roundHalfEven x ≤ roundHalfEven y := by
  have hf : ⌊x⌋ ≤ ⌊y⌋ := Int.floor_le_floor h
  rcases lt_or_eq_of_le hf with hlt | heq
  · have h1 := roundHalfEven_le_floor_add_one x
    have h2 := floor_le_roundHalfEven y
    omega
  · have hfr : Int.fract x ≤ Int.fract y := by
      unfold Int.fract
      rw [heq]
      linarith
    have hylo := floor_le_roundHalfEven y
    have hyhi := roundHalfEven_le_floor_add_one y
    rcases lt_trichotomy (Int.fract x) (1 / 2) with hx | hx | hx
    · have hex : roundHalfEven x = ⌊x⌋ := by
        unfold roundHalfEven
        rw [if_pos hx]
      omega
    · rcases Int.even_or_odd ⌊x⌋ with hpar | hpar
      · have hex : roundHalfEven x = ⌊x⌋ := by
          unfold roundHalfEven
          rw [if_neg (by rw [hx]; exact lt_irrefl _), if_pos hx, if_pos hpar]
        omega
      · have hex : roundHalfEven x = ⌊x⌋ + 1 := by
          unfold roundHalfEven
          rw [if_neg (by rw [hx]; exact lt_irrefl _), if_pos hx,
            if_neg (Int.not_even_iff_odd.mpr hpar)]
        rcases lt_trichotomy (Int.fract y) (1 / 2) with hy | hy | hy
        · linarith
        · have hey : roundHalfEven y = ⌊y⌋ + 1 := by
            unfold roundHalfEven
            rw [if_neg (by rw [hy]; exact lt_irrefl _), if_pos hy,
              if_neg (by rw [← heq]; exact Int.not_even_iff_odd.mpr hpar)]
          omega
        · have hey : roundHalfEven y = ⌊y⌋ + 1 := by
            unfold roundHalfEven
            rw [if_neg (not_lt.mpr (le_of_lt hy)), if_neg (ne_of_gt hy)]
          omega
    · have hex : roundHalfEven x = ⌊x⌋ + 1 := by
        unfold roundHalfEven
        rw [if_neg (not_lt.mpr (le_of_lt hx)), if_neg (ne_of_gt hx)]
      have hy : 1 / 2 < Int.fract y := lt_of_lt_of_le hx hfr
      have hey : roundHalfEven y = ⌊y⌋ + 1 := by
        unfold roundHalfEven
        rw [if_neg (not_lt.mpr (le_of_lt hy)), if_neg (ne_of_gt hy)]
      omega

theorem pyRound_nonneg {x : ℝ} (d : ℕ) (hx : 0 ≤ x) : 0 ≤ pyRound x d := by
  unfold pyRound
  have h1 : (0 : ℤ) ≤ roundHalfEven (x * 10 ^ d) :=
    roundHalfEven_nonneg (by positivity)
  have h2 : (0 : ℝ) ≤ (roundHalfEven (x * 10 ^ d) : ℝ) := Int.cast_nonneg.mpr h1
  positivity

theorem pyRound_mono {x y : ℝ} (d : ℕ) (h : x ≤ y) : pyRound x d ≤ pyRound y d := by
  unfold pyRound
  have hm : roundHalfEven (x * 10 ^ d) ≤ roundHalfEven (y * 10 ^ d) :=
    roundHalfEven_mono (by nlinarith [pow_pos (show (0:ℝ) < 10 by norm_num) d])
  have hc : ((roundHalfEven (x * 10 ^ d) : ℤ) : ℝ) ≤ (roundHalfEven (y * 10 ^ d) : ℝ) :=
    Int.cast_le.mpr hm
  have hp : (0 : ℝ) < 10 ^ d := by positivity
  exact div_le_div_of_nonneg_right hc hp.le

theorem pyRound_intCast (n : ℤ) (d : ℕ) : pyRound (n : ℝ) d = n := by
  unfold pyRound
  have h : ((n : ℝ) * 10 ^ d) = ((n * 10 ^ d : ℤ) : ℝ) := by push_cast; ring
  rw [h, roundHalfEven_intCast]
  push_cast
  have hp : (10 : ℝ) ^ d ≠ 0 := by positivity
  field_simp

theorem pyRound_natCast (n : ℕ) (d : ℕ) : pyRound (n : ℝ) d = n := by
  have h : ((n : ℝ)) = ((n : ℤ) : ℝ) := by push_cast; ring
  rw [h, pyRound_intCast]

/-! ### Helper lemmas about the argmax scan -/

theorem argmaxIdx_lt_length : ∀ (l : List ℝ), l ≠ [] → argmaxIdx l < l.length
  | [], h => absurd rfl h
  | [_], _ => by simp [argmaxIdx]
  | v :: w :: vs, _ => by
    have ih := argmaxIdx_lt_length (w :: vs) (by simp)
    simp only [argmaxIdx]
    split_ifs
    · simp
    · simpa using Nat.succ_lt_succ ih

theorem le_getD_argmaxIdx : ∀ (l : List ℝ), ∀ x ∈ l, x ≤ l.getD (argmaxIdx l) 0
  | [], x, h => absurd h (List.not_mem_nil x)
  | [v], x, h => by
    simp only [List.mem_singleton] at h
    simp [argmaxIdx, h]
  | v :: w :: vs, x, h => by
    have ih := le_getD_argmaxIdx (w :: vs)
    simp only [argmaxIdx]
    split_ifs with hle
    · rcases List.mem_cons.mp h with rfl | hx
      · simp
      · exact le_trans (ih x hx) (by simpa using hle)
    · rcases List.mem_cons.mp h with rfl | hx
      · simpa using le_of_lt (lt_of_not_le hle)
      · simpa using ih x hx

theorem getD_argmaxIdx_mem : ∀ (l : List ℝ), l ≠ [] → l.getD (argmaxIdx l) 0 ∈ l
  | [], h => absurd rfl h
  | [v], _ => by simp [argmaxIdx]
  | v :: w :: vs, _ => by
    have ih := getD_argmaxIdx_mem (w :: vs) (by simp)
    simp only [argmaxIdx]
    split_ifs
    · simp
    · simpa using Or.inr ih

theorem argmaxIdx_eq_zero_of_const : ∀ (l : List ℝ) (c : ℝ), (∀ y ∈ l, y = c) → argmaxIdx l = 0
  | [], _, _ => rfl
  | [_], _, _ => rfl
  | v :: w :: vs, c, h => by
    have hmem := getD_argmaxIdx_mem (w :: vs) (by simp)
    have hval : (w :: vs).getD (argmaxIdx (w :: vs)) 0 = c :=
      h _ (List.mem_cons_of_mem _ hmem)
    have hv : v = c := h v (List.mem_cons_self v _)
    simp only [argmaxIdx]
    rw [if_pos]
    rw [hval, hv]

/-! ### Helper lemmas about the normal quantile and standard deviations -/

theorem stdNormalCDF_tendsto_atTop :
    Filter.Tendsto stdNormalCDF Filter.atTop (nhds 1) :=
  ProbabilityTheory.tendsto_cdf_atTop (ProbabilityTheory.gaussianReal 0 1)

theorem stdNormalCDF_tendsto_atBot :
    Filter.Tendsto stdNormalCDF Filter.atBot (nhds 0) :=
  ProbabilityTheory.tendsto_cdf_atBot (ProbabilityTheory.gaussianReal 0 1)

theorem normPpf_mono {p q : ℝ} (hp : 0 < p) (hpq : p ≤ q) (hq : q < 1) :
    normPpf p ≤ normPpf q := by
  unfold normPpf
  have hsub : {x : ℝ | q ≤ stdNormalCDF x} ⊆ {x : ℝ | p ≤ stdNormalCDF x} :=
    fun x hx => le_trans hpq hx
  have hne : {x : ℝ | q ≤ stdNormalCDF x}.Nonempty := by
    obtain ⟨x, hx⟩ := (stdNormalCDF_tendsto_atTop.eventually (eventually_ge_nhds hq)).exists
    exact ⟨x, hx⟩
  have hbdd : BddBelow {x : ℝ | p ≤ stdNormalCDF x} := by
    obtain ⟨b, hb⟩ :=
      Filter.eventually_atBot.mp (stdNormalCDF_tendsto_atBot.eventually (eventually_lt_nhds hp))
    refine ⟨b, fun x hx => ?_⟩
    by_contra hbx
    push_neg at hbx
    exact absurd hx (not_le.mpr (hb x (le_of_lt hbx)))
  exact csInf_le_csInf hbdd hne hsub

theorem sampleStd_nonneg (l : List ℝ) : 0 ≤ sampleStd l := Real.sqrt_nonneg _

/-! ### Helper lemmas about the forecast loop -/

theorem predictLoop_eq_append_map (m : Model) (recentSales : List ℝ) :
    ∀ (ds : List Date) (acc : List PredEntry),
      predictLoop m recentSales ds acc =
        acc ++ ds.map (fun d =>
          { date := d
            predicted_demand := pyRound (max 0 (m (featureRow recentSales d))) 2 })
  | [], acc => by simp [predictLoop]
  | d :: ds, acc => by
    rw [predictLoop, predictLoop_eq_append_map m recentSales ds]
    simp

theorem predictLoop_mem_nonneg (m : Model) (recentSales : List ℝ)
    (ds : List Date) (p : PredEntry)
    (hp : p ∈ predictLoop m recentSales ds []) : 0 ≤ p.predicted_demand := by
  rw [predictLoop_eq_append_map] at hp
  simp only [List.nil_append, List.mem_map] at hp
  obtain ⟨d, _, rfl⟩ := hp
  exact pyRound_nonneg 2 (le_max_left 0 _)

theorem pyRound_three : pyRound (3 : ℝ) 2 = 3 := by
  have h := pyRound_natCast 3 2
  norm_num at h
  exact h

theorem pyRound_six : pyRound (6 : ℝ) 2 = 6 := by
  have h := pyRound_natCast 6 2
  norm_num at h
  exact h

theorem pyRound_seven : pyRound (7 : ℝ) 2 = 7 := by
  have h := pyRound_natCast 7 2
  norm_num at h
  exact h

/-! ### Claim C2 -/

/-- C2: after successful training, calling `predict_demand` with
`days_ahead = 0` does NOT return a successful empty forecast: the
`average_daily_demand` computation divides the total by `days_ahead`,
raising `ZeroDivisionError`, which the catch-all returns as an error
dictionary.  This contradicts the claim (code bug): for every fitted
model and nonempty recent-sales buffer, the zero-day call yields the
division-by-zero error. -/
theorem c2_zero_days_division_error (m : Model) (pid : ℕ) (rs : List ℝ)
    (h : rs ≠ []) :
    predictDemand m pid rs [] = Except.error "division by zero" := by
  unfold predictDemand
  rw [if_neg h]
  simp [predictLoop, pyDiv]

/-- C2 witness: the failure at a concrete input. -/
theorem c2_witness :
    (([5] : List ℝ) ≠ []) ∧
      predictDemand modelConst3 2 [5] [] = Except.error "division by zero" :=
  ⟨by simp, c2_zero_days_division_error modelConst3 2 [5] (by simp)⟩

/-! ### Claim C4 -/

/-- C4 counterexample: a successful statistical-path result of
`calculate_reorder_point` carries NO `method` key at all (its `method`
field is `none`, not `some "statistical"`), so the claim that every
successful result contains a `method` field valued `"statistical"` or
`"simple"` fails on the statistical path. -/
theorem c4_counterexample :
    (calculateReorderPoint 1 1 (Except.ok forecastOkW) [] none none
        (95 / 100)).method = none := rfl

/-- C4 (amended): only the simple fallback labels its result, with
`method = "simple"`; the statistical path returns no `method` key, so
callers distinguish the paths by the key's absence. -/
theorem c4_method_labels :
    (∀ (pid lid : ℕ) (fr : ForecastResult) (daily : List ℝ)
        (avg30 cost : Option ℝ) (s : ℝ),
        (calculateReorderPoint pid lid (Except.ok fr) daily avg30 cost s).method
          = none) ∧
      (∀ (pid lid : ℕ) (msg : String) (daily : List ℝ)
        (avg30 cost : Option ℝ) (s : ℝ),
        (calculateReorderPoint pid lid (Except.error msg) daily avg30 cost s).method
          = some "simple") := by
  constructor <;> intros <;> rfl

/-! ### Claim C6 -/

/-- C6: for every product whose raw sales history has fewer than 30 rows,
`train_demand_model` returns the insufficient-data error and leaves the
model store (joblib files and in-memory caches) exactly as it was. -/
theorem c6_no_artifact_below_30 (featurize : List SaleRow → List FeatureRow)
    (fitCandidates : List FeatureRow → Candidate × Candidate × Candidate)
    (fitScaler : List FeatureRow → Scaler) (pid : ℕ)
    (salesData : List SaleRow) (store : ModelStore)
    (h : salesData.length < 30) :
    trainDemandModel featurize fitCandidates fitScaler pid salesData store =
      (TrainOutcome.insufficientData, store) := by
  unfold trainDemandModel
  rw [if_pos h]

/-- C6 witness: the theorem applied at a concrete empty history. -/
theorem c6_witness :
    (([] : List SaleRow).length < 30) ∧
      trainDemandModel featurizeW fitCandidatesW fitScalerW 1 [] storeEmpty =
        (TrainOutcome.insufficientData, storeEmpty) :=
  ⟨by simp,
    c6_no_artifact_below_30 featurizeW fitCandidatesW fitScalerW 1 [] storeEmpty
      (by simp)⟩

/-! ### Claim C10 -/

/-- C10: when the stored product cost is non-null and non-zero,
`optimize_price` is independent of the caller-supplied `current_cost`
argument: `float(product.cost or current_cost)` resolves to the stored
cost, and `current_cost` is used nowhere else. -/
theorem c10_stored_cost_overrides (currentPrice c cc1 cc2 targetMargin : ℝ)
    (er : Except String ℝ) (avg : Option ℝ) (hc : c ≠ 0) :
    optimizePrice (some (currentPrice, some c)) cc1 targetMargin er avg =
      optimizePrice (some (currentPrice, some c)) cc2 targetMargin er avg := by
  simp only [optimizePrice, pyOrFloat, if_neg hc]

/-- C10 witness: two calls differing only in `current_cost`. -/
theorem c10_witness :
    optimizePrice (some (1, some 5)) 2 (3 / 10) (Except.error "e") none =
      optimizePrice (some (1, some 5)) 7 (3 / 10) (Except.error "e") none :=
  c10_stored_cost_overrides 1 5 2 7 (3 / 10) (Except.error "e") none (by norm_num)

/-! ### Claim C9 -/

/-- C9: every successful `predict_demand` result contains only
non-negative predicted quantities — each raw model output is clamped by
`max(0, pred)` before being rounded and returned. -/
theorem c9_predictions_nonneg (m : Model) (pid : ℕ) (rs : List ℝ)
    (ds : List Date) (r : ForecastResult)
    (h : predictDemand m pid rs ds = Except.ok r) :
    ∀ p ∈ r.predictions, 0 ≤ p.predicted_demand := by
  unfold predictDemand at h
  by_cases hrs : rs = []
  · rw [if_pos hrs] at h
    exact absurd h (by simp)
  · rw [if_neg hrs] at h
    simp only [pyDiv] at h
    split_ifs at h
    simp only [Except.ok.injEq] at h
    subst h
    intro p hp
    exact predictLoop_mem_nonneg m rs ds p hp

/-- C9 witness: the theorem applied to a concrete successful forecast. -/
theorem c9_witness : 0 ≤ (PredEntry.mk dateW 3).predicted_demand :=
  c9_predictions_nonneg modelConst3 1 [5] [dateW] forecastW
    (by
      unfold predictDemand
      rw [if_neg (by simp)]
      have hm : modelConst3 (featureRow [5] dateW) = 3 := rfl
      simp [predictLoop, pyDiv, hm, pyRound_three, forecastW,
        max_eq_right (show (0:ℝ) ≤ 3 by norm_num)])
    (PredEntry.mk dateW 3) (by simp [forecastW])

/-! ### Claim C3 -/

/-- C3 counterexample: with all three candidate MAEs exactly equal (all
minimal), the selection loop keeps the FIRST candidate in iteration
order — the random forest — not the linear model, because a candidate
replaces the incumbent only on a strictly smaller MAE.  This refutes the
claimed tie-break in favour of the linear model. -/
theorem c3_counterexample :
    (selectBestModel [candRF, candGB, candLR]).map Candidate.name =
      some "random_forest" := by
  simp [selectBestModel, candRF, candGB, candLR]

/-- C3 (amended): `train_demand_model` selects the candidate with the
lowest held-out MAE, and exact ties are broken in favour of the EARLIER
candidate in iteration order (random forest, then gradient boosting,
then linear regression). -/
theorem c3_first_minimum_selected (mRF mGB mLR : Model) (aRF aGB aLR : ℝ) :
    (selectBestModel
        [{ name := "random_forest", model := mRF, mae := aRF },
         { name := "gradient_boosting", model := mGB, mae := aGB },
         { name := "linear_regression", model := mLR, mae := aLR }]).map
        Candidate.name =
      some (if aRF ≤ aGB ∧ aRF ≤ aLR then "random_forest"
            else if aGB ≤ aLR then "gradient_boosting"
            else "linear_regression") := by
  simp only [selectBestModel, List.foldl]
  by_cases h1 : aGB < aRF
  · by_cases h3 : aLR < aGB
    · have hr1 : ¬(aRF ≤ aGB ∧ aRF ≤ aLR) := by
        intro hcon
        linarith [hcon.1]
      have hr2 : ¬(aGB ≤ aLR) := not_le.mpr h3
      simp [h1, h3, hr1, hr2]
    · have hr1 : ¬(aRF ≤ aGB ∧ aRF ≤ aLR) := by
        intro hcon
        linarith [hcon.1]
      have hr2 : aGB ≤ aLR := not_lt.mp h3
      simp [h1, h3, hr1, hr2]
  · by_cases h2 : aLR < aRF
    · have hrf : aRF ≤ aGB := not_lt.mp h1
      have h3 : aLR < aGB := lt_of_lt_of_le h2 hrf
      have hr1 : ¬(aRF ≤ aGB ∧ aRF ≤ aLR) := by
        intro hcon
        linarith [hcon.2]
      have hr2 : ¬(aGB ≤ aLR) := not_le.mpr h3
      simp [h1, h2, h3, hr1, hr2]
    · have hr1 : aRF ≤ aGB ∧ aRF ≤ aLR := ⟨not_lt.mp h1, not_lt.mp h2⟩
      simp [h1, h2, hr1]

/-! ### Claim C1 -/

/-- C1 counterexample: the forecast walk of `predict_demand` is NOT
autoregressive.  With one observed quantity (5) and a model that
predicts yesterday's sales plus one, the code produces [6, 6] — day 2's
`sales_lag_1` is still the observed 5, not day 1's prediction — whereas
the spec's autoregressive walk (each clamped prediction appended to the
buffer) produces [6, 7]. -/
theorem c1_counterexample :
    ((predictLoop modelLag1Succ [5] [dateA, dateB] []).map
        PredEntry.predicted_demand = [6, 6]) ∧
      ((predictLoopAR modelLag1Succ [5] [dateA, dateB]).map
        PredEntry.predicted_demand = [6, 7]) := by
  have hfr5 : ∀ d : Date, modelLag1Succ (featureRow [5] d) = 6 := by
    intro d
    show (featureRow [5] d).sales_lag_1 + 1 = 6
    simp [featureRow, lastN]
    norm_num
  have hfr56 : modelLag1Succ (featureRow [5, 6] dateB) = 7 := by
    show (featureRow [5, 6] dateB).sales_lag_1 + 1 = 7
    simp [featureRow, lastN]
    norm_num
  have hmax6 : max (0:ℝ) 6 = 6 := by norm_num
  have hmax7 : max (0:ℝ) 7 = 7 := by norm_num
  constructor
  · rw [predictLoop_eq_append_map]
    simp [hfr5, hmax6, pyRound_six]
  · simp only [predictLoopAR, hfr5, hmax6, pyRound_six]
    simp only [show ([5] ++ [(6:ℝ)]) = [5, 6] from rfl, hfr56, hmax7, pyRound_seven]
    simp

/-- C1 (amended): the forecast walk reuses a fixed snapshot of observed
history: every horizon day's lag and rolling features are computed from
the same initial buffer, and predicted values are never appended to it —
the loop's output is a plain map over the dates with the buffer
unchanged. -/
theorem c1_fixed_buffer (m : Model) (recentSales : List ℝ) (ds : List Date)
    (acc : List PredEntry) :
    predictLoop m recentSales ds acc =
      acc ++ ds.map (fun d =>
        { date := d
          predicted_demand := pyRound (max 0 (m (featureRow recentSales d))) 2 }) :=
  predictLoop_eq_append_map m recentSales ds acc

/-! ### Claim C5 -/

/-- C5 counterexample: with two low-stock rows where the per-item
calculation fails for product 1 and succeeds for product 2, the batch
does return product 2's suggestion (one failure does not abort the
batch), but the returned output contains NO record of product 1's
failure — failures are silently dropped, not collected and reported
alongside the successes. -/
theorem c5_counterexample :
    ((generateReorderSuggestions calcFailOn1 [rowA, rowB]).map
        Suggestion.product_id = [2]) ∧
      (∀ s ∈ generateReorderSuggestions calcFailOn1 [rowA, rowB],
        s.product_id ≠ 1) := by
  have h : generateReorderSuggestions calcFailOn1 [rowA, rowB] =
      [mkSuggestion rowB rcB] := by
    unfold generateReorderSuggestions
    simp [suggestionStep, calcFailOn1, rowA, rowB]
  refine ⟨by rw [h]; simp [mkSuggestion, rowB], ?_⟩
  intro s hs
  rw [h] at hs
  simp only [List.mem_singleton] at hs
  subst hs
  simp [mkSuggestion, rowB]

/-- C5 (amended): `generate_reorder_suggestions` isolates per-item
failures — every successfully calculated row still contributes its
suggestion (up to the priority sort's permutation) — but rows whose
calculation fails are silently skipped and leave no trace in the
returned output. -/
theorem c5_failures_silently_skipped
    (calcRP : ℕ → ℕ → Except String ReorderResult)
    (rows : List LowStockRow) :
    (generateReorderSuggestions calcRP rows).Perm
      (rows.filterMap (fun p =>
        match calcRP p.product_id p.location_id with
        | Except.ok rc => some (mkSuggestion p rc)
        | Except.error _ => none)) := by
  unfold generateReorderSuggestions
  refine (List.mergeSort_perm _ _).trans ?_
  have key : ∀ (rs : List LowStockRow) (acc : List Suggestion),
      rs.foldl (suggestionStep calcRP) acc =
        acc ++ rs.filterMap (fun p =>
          match calcRP p.product_id p.location_id with
          | Except.ok rc => some (mkSuggestion p rc)
          | Except.error _ => none) := by
    intro rs
    induction rs with
    | nil => intro acc; simp
    | cons p ps ih =>
      intro acc
      simp only [List.foldl_cons, List.filterMap_cons]
      rcases hcp : calcRP p.product_id p.location_id with e | rc
      · simp [suggestionStep, hcp, ih]
      · simp [suggestionStep, hcp, ih (acc ++ [mkSuggestion p rc])]
  rw [key rows []]
  simp

/-! ### Claim C7 -/

/-- C7: for fixed demand statistics (a fixed forecast, hence fixed
non-negative average daily demand, and a demand standard deviation that is
non-negative on both branches) and fixed lead time, the `safety_stock`
and `reorder_point` fields computed by the statistical path of
`calculate_reorder_point` are monotonically non-decreasing in
`service_level` on (0, 1): the normal quantile `z(s)` is non-decreasing,
and multiplying by the non-negative `demand_std * sqrt(lead_time)` and
rounding preserve the order. -/
theorem c7_monotone_in_service_level (pid lid : ℕ) (fr : ForecastResult)
    (daily : List ℝ) (avg30 storedCost : Option ℝ) (s1 s2 : ℝ)
    (hs1 : 0 < s1) (h12 : s1 ≤ s2) (hs2 : s2 < 1)
    (havg : 0 ≤ fr.average_daily_demand) :
    ((calculateReorderPoint pid lid (Except.ok fr) daily avg30 storedCost
          s1).safety_stock.getD 0
        ≤ (calculateReorderPoint pid lid (Except.ok fr) daily avg30 storedCost
          s2).safety_stock.getD 0)
      ∧ ((calculateReorderPoint pid lid (Except.ok fr) daily avg30 storedCost
          s1).reorder_point
        ≤ (calculateReorderPoint pid lid (Except.ok fr) daily avg30 storedCost
          s2).reorder_point) := by
  have hstd : 0 ≤ (if daily.length < 10 then fr.average_daily_demand * 0.3
      else sampleStd daily) := by
    split_ifs
    · have : (0:ℝ) ≤ 0.3 := by norm_num
      exact mul_nonneg havg this
    · exact sampleStd_nonneg daily
  have hz := normPpf_mono hs1 h12 hs2
  have hsq : (0:ℝ) ≤ Real.sqrt 7 := Real.sqrt_nonneg 7
  have hss : normPpf s1 *
        (if daily.length < 10 then fr.average_daily_demand * 0.3
          else sampleStd daily) * Real.sqrt 7
      ≤ normPpf s2 *
        (if daily.length < 10 then fr.average_daily_demand * 0.3
          else sampleStd daily) * Real.sqrt 7 :=
    mul_le_mul_of_nonneg_right (mul_le_mul_of_nonneg_right hz hstd) hsq
  constructor
  · show (Option.getD (some (pyRound _ 0)) 0) ≤ (Option.getD (some (pyRound _ 0)) 0)
    simp only [Option.getD_some]
    exact pyRound_mono 0 hss
  · show pyRound _ 0 ≤ pyRound _ 0
    refine pyRound_mono 0 ?_
    have : fr.average_daily_demand * 7 + normPpf s1 *
          (if daily.length < 10 then fr.average_daily_demand * 0.3
            else sampleStd daily) * Real.sqrt 7
        ≤ fr.average_daily_demand * 7 + normPpf s2 *
          (if daily.length < 10 then fr.average_daily_demand * 0.3
            else sampleStd daily) * Real.sqrt 7 := by linarith
    exact this

/-- C7 witness: the theorem applied at service levels 0.5 and 0.9. -/
theorem c7_witness :
    ((calculateReorderPoint 1 1 (Except.ok forecastOkW) [] none none
          (1 / 2)).safety_stock.getD 0
        ≤ (calculateReorderPoint 1 1 (Except.ok forecastOkW) [] none none
          (9 / 10)).safety_stock.getD 0)
      ∧ ((calculateReorderPoint 1 1 (Except.ok forecastOkW) [] none none
          (1 / 2)).reorder_point
        ≤ (calculateReorderPoint 1 1 (Except.ok forecastOkW) [] none none
          (9 / 10)).reorder_point) :=
  c7_monotone_in_service_level 1 1 forecastOkW [] none none (1 / 2) (9 / 10)
    (by norm_num) (by norm_num) (by norm_num)
    (by norm_num [forecastOkW])

/-! ### Claim C8 -/

/-- C8 (amended): for positive cost, positive current price and positive
base demand, the price selected by the 100-sample arg-max scan of
`optimize_price` — BEFORE the final 2-digit rounding of the returned
dictionary — is strictly greater than the cost: the first scanned price
`1.1 * cost` already has positive profit, profit is zero at or below
cost, and the arg-max value dominates the first sample. -/
theorem c8_scan_price_above_cost (cost currentPrice elasticity baseDemand : ℝ)
    (hc : 0 < cost) (hp : 0 < currentPrice) (hb : 0 < baseDemand) :
    cost < optimalScanPrice cost currentPrice elasticity baseDemand := by
  have hzero : ∀ p : ℝ, p ≤ cost →
      profitFunction cost currentPrice elasticity baseDemand p = 0 := by
    intro p hp2
    unfold profitFunction
    rw [if_pos hp2]
  have hheadpos :
      0 < profitFunction cost currentPrice elasticity baseDemand (cost * 1.1) := by
    unfold profitFunction
    rw [if_neg (by push_neg; nlinarith)]
    have h1 : 0 < cost * 1.1 - cost := by nlinarith
    have h2 : 0 < cost * 1.1 / currentPrice := by positivity
    exact mul_pos h1 (mul_pos hb (Real.rpow_pos_of_pos h2 elasticity))
  unfold optimalScanPrice
  set pr := linspace (cost * 1.1) (currentPrice * 2) 100 with hprdef
  set f := profitFunction cost currentPrice elasticity baseDemand with hfdef
  show cost < pr.getD (argmaxIdx (List.map f pr)) 0
  have hlen : pr.length = 100 := by
    rw [hprdef]
    unfold linspace
    rw [List.length_map, List.length_range]
  have hne : pr ≠ [] := by
    intro hnil
    rw [hnil] at hlen
    simp at hlen
  have hmem0 : (cost * 1.1) ∈ pr := by
    rw [hprdef]
    unfold linspace
    refine List.mem_map.mpr ⟨0, ?_, ?_⟩
    · simp
    · norm_num
  have hmax : f (cost * 1.1) ≤ (List.map f pr).getD (argmaxIdx (List.map f pr)) 0 :=
    le_getD_argmaxIdx (List.map f pr) (f (cost * 1.1)) (List.mem_map_of_mem f hmem0)
  have hk : argmaxIdx (List.map f pr) < pr.length := by
    have hmapne : List.map f pr ≠ [] := by simpa using hne
    have h := argmaxIdx_lt_length (List.map f pr) hmapne
    simpa using h
  have hval : (List.map f pr).getD (argmaxIdx (List.map f pr)) 0 =
      f (pr.getD (argmaxIdx (List.map f pr)) 0) := by
    rw [List.getD_eq_getElem _ _ (by simpa using hk),
      List.getD_eq_getElem _ _ hk, List.getElem_map]
  by_contra hle
  push_neg at hle
  rw [hval, hzero _ hle] at hmax
  linarith

/-- C8 witness: the amended theorem applied at a concrete input. -/
theorem c8_witness :
    (1 : ℝ) < optimalScanPrice 1 1 (-1) 1 :=
  c8_scan_price_above_cost 1 1 (-1) 1 (by norm_num) (by norm_num) (by norm_num)

/-- C8 counterexample to the claim as stated: the RETURNED
`optimal_price` is the arg-max price rounded to 2 digits, and the
rounding can land exactly on the cost.  With stored cost 0.01 and
current price 0.0055, every scanned price equals 0.011; the arg-max
price 0.011 is rounded to 0.01 = cost, so the returned `optimal_price`
is not strictly greater than the cost. -/
theorem c8_counterexample :
    (optimizePrice (some (11 / 2000, some (1 / 100))) 0 (3 / 10)
          (Except.error "Insufficient price variation data")
          none).toOption.map OptResult.optimal_price = some (1 / 100) := by
  have hconst : ∀ y ∈ linspace ((1 / 100 : ℝ) * 1.1) ((11 / 2000 : ℝ) * 2) 100,
      y = 11 / 1000 := by
    intro y hy
    simp only [linspace, List.mem_map] at hy
    obtain ⟨i, _, rfl⟩ := hy
    norm_num
  have hprofconst : ∀ z ∈ List.map (profitFunction (1 / 100) (11 / 2000) (-1) 1)
        (linspace ((1 / 100 : ℝ) * 1.1) ((11 / 2000 : ℝ) * 2) 100),
      z = profitFunction (1 / 100) (11 / 2000) (-1) 1 (11 / 1000) := by
    intro z hz
    simp only [List.mem_map] at hz
    obtain ⟨y, hy, rfl⟩ := hz
    rw [hconst y hy]
  have hidx : argmaxIdx (List.map (profitFunction (1 / 100) (11 / 2000) (-1) 1)
        (linspace ((1 / 100 : ℝ) * 1.1) ((11 / 2000 : ℝ) * 2) 100)) = 0 :=
    argmaxIdx_eq_zero_of_const _ _ hprofconst
  have hopt : optimalScanPrice (1 / 100) (11 / 2000) (-1) 1 = 11 / 1000 := by
    unfold optimalScanPrice
    show (linspace ((1 / 100 : ℝ) * 1.1) ((11 / 2000 : ℝ) * 2) 100).getD
        (argmaxIdx (List.map (profitFunction (1 / 100) (11 / 2000) (-1) 1)
          (linspace ((1 / 100 : ℝ) * 1.1) ((11 / 2000 : ℝ) * 2) 100))) 0 = 11 / 1000
    rw [hidx]
    have hlen0 : 0 < (linspace ((1 / 100 : ℝ) * 1.1) ((11 / 2000 : ℝ) * 2)
        100).length := by
      unfold linspace
      rw [List.length_map, List.length_range]
      norm_num
    rw [List.getD_eq_getElem _ _ hlen0]
    unfold linspace
    rw [List.getElem_map]
    norm_num
  have hfl : ⌊(11 : ℝ) / 10⌋ = 1 := by
    rw [Int.floor_eq_iff]
    constructor
    · norm_num
    · norm_num
  have hfr : Int.fract ((11 : ℝ) / 10) = 1 / 10 := by
    unfold Int.fract
    rw [hfl]
    norm_num
  have hround : pyRound ((11 : ℝ) / 1000) 2 = 1 / 100 := by
    unfold pyRound
    have h1 : (11 : ℝ) / 1000 * 10 ^ 2 = 11 / 10 := by norm_num
    rw [h1]
    unfold roundHalfEven
    rw [hfr, if_pos (by norm_num), hfl]
    norm_num
  unfold optimizePrice
  simp only [pyOrFloat]
  rw [if_neg (by norm_num : ¬((1 : ℝ) / 100) = 0)]
  show Option.map OptResult.optimal_price
      (some
        { current_price := pyRound (11 / 2000) 2
          optimal_price := pyRound (optimalScanPrice (1 / 100) (11 / 2000) (-1) 1) 2
          target_margin_price := pyRound (1 / 100 / (1 - 3 / 10)) 2
          current_margin := pyRound ((11 / 2000 - 1 / 100) / (11 / 2000)) 3
          optimal_margin := pyRound
            ((optimalScanPrice (1 / 100) (11 / 2000) (-1) 1 - 1 / 100) /
              optimalScanPrice (1 / 100) (11 / 2000) (-1) 1) 3
          profit_improvement_percent := pyRound
            (if 0 < profitFunction (1 / 100) (11 / 2000) (-1) 1 (11 / 2000) then
              (maxScanProfit (1 / 100) (11 / 2000) (-1) 1 -
                  profitFunction (1 / 100) (11 / 2000) (-1) 1 (11 / 2000)) /
                profitFunction (1 / 100) (11 / 2000) (-1) 1 (11 / 2000) * 100
            else 0) 1
          price_elasticity := pyRound (-1) 3 }) = some (1 / 100)
  rw [Option.map_some']
  rw [show OptResult.optimal_price
      { current_price := pyRound (11 / 2000) 2
        optimal_price := pyRound (optimalScanPrice (1 / 100) (11 / 2000) (-1) 1) 2
        target_margin_price := pyRound (1 / 100 / (1 - 3 / 10)) 2
        current_margin := pyRound ((11 / 2000 - 1 / 100) / (11 / 2000)) 3
        optimal_margin := pyRound
          ((optimalScanPrice (1 / 100) (11 / 2000) (-1) 1 - 1 / 100) /
            optimalScanPrice (1 / 100) (11 / 2000) (-1) 1) 3
        profit_improvement_percent := pyRound
          (if 0 < profitFunction (1 / 100) (11 / 2000) (-1) 1 (11 / 2000) then
            (maxScanProfit (1 / 100) (11 / 2000) (-1) 1 -
                profitFunction (1 / 100) (11 / 2000) (-1) 1 (11 / 2000)) /
              profitFunction (1 / 100) (11 / 2000) (-1) 1 (11 / 2000) * 100
          else 0) 1
        price_elasticity := pyRound (-1) 3 } =
      pyRound (optimalScanPrice (1 / 100) (11 / 2000) (-1) 1) 2 from rfl]
  rw [hopt, hround]
